import Mathlib

/-!
Verification of the training-orchestration layer of the user_management
repository against its natural-language specification.

The development shallowly embeds, in Lean, the code paths that the spec's
claims are about:

* the training-queue listing endpoint `get_training_queue`
  (src/src/api/training_routes.py) together with the `TrainingJob` /
  `TrainingQueue` table rows it reads (src/src/models/training_models.py);
* the queue manager admission operation `add_job` (the file
  `training_queue_manager.py` is referenced only by the test-suite and is
  not part of src/, so it is modelled from the spec, as marked);
* the `TrainingService` job lifecycle (backend/services/training_service.py):
  `start_training_job`, `_monitor_training_job`, `_handle_training_completion`,
  `_handle_training_failure`, `stop_training`;
* the `FluxGymService` progress monitor (backend/services/fluxgym_service.py):
  `monitor_training` and `_parse_training_output`, including a faithful
  character-level rendering of the three `re.search` patterns.

Machine-level effects are made explicit: the database is a list of rows,
`active_jobs` is an association list, fallible external steps are `Except` /
`Option` parameters, and the subprocess in `stop_training` is modelled by the
delay between the graceful stop signal and its exit.
-/

namespace UserMgmt

/-! ## Part 1 — the queue listing route (src/src/api/training_routes.py)

`get_training_queue` reads the `training_jobs` table: it returns the jobs with
status `"training"` (in table order) followed by the jobs with status
`"pending"` ordered by `created_at` ascending (`.order_by(TrainingJob.created_at)`).
The `training_queue` table carries a `priority` column (`training_models.py`,
lines 122-134); the route never consults it. -/

/-- A row of the `training_jobs` table (src/src/models/training_models.py,
`TrainingJob`), restricted to the columns the queue route reads. `created_at`
is modelled as a natural-number timestamp. -/
structure TrainingJobRow where
  id : Nat
  job_id : String
  product_id : Nat
  user_id : Nat
  status : String
  created_at : Nat
deriving DecidableEq, Repr

/-- A row of the `training_queue` table (src/src/models/training_models.py,
`TrainingQueue`): `priority` — higher number = higher priority. -/
structure TrainingQueueRow where
  training_job_id : Nat
  priority : Int
deriving DecidableEq, Repr

/-- The `ORDER BY created_at` key used by the route for pending jobs. -/
def byCreatedAt (a b : TrainingJobRow) : Prop := a.created_at ≤ b.created_at

instance : DecidableRel byCreatedAt := fun a b => Nat.decLe a.created_at b.created_at

instance : IsTotal TrainingJobRow byCreatedAt := ⟨fun a b => Nat.le_total a.created_at b.created_at⟩

instance : IsTrans TrainingJobRow byCreatedAt := ⟨fun _ _ _ => Nat.le_trans⟩

/-- The pending part of the route's answer:
`db.query(TrainingJob).filter(TrainingJob.status == "pending").order_by(TrainingJob.created_at)`.
A stable sort models the SQL `ORDER BY`. -/
def pending_jobs (db : List TrainingJobRow) : List TrainingJobRow :=
  List.insertionSort byCreatedAt (db.filter (fun j => j.status == "pending"))

/-- The running part of the route's answer:
`db.query(TrainingJob).filter(TrainingJob.status == "training")`, in table order. -/
def running_jobs (db : List TrainingJobRow) : List TrainingJobRow :=
  db.filter (fun j => j.status == "training")

/-- `get_training_queue` (src/src/api/training_routes.py, lines 362-394): the
jobs listed are `running_jobs + pending_jobs`, in that concatenation order. -/
def get_training_queue (db : List TrainingJobRow) : List TrainingJobRow :=
  running_jobs db ++ pending_jobs db

/-- Priority of a job according to the `training_queue` table; `0` (the
column default) when the job has no queue row. -/
def priorityOf (qt : List TrainingQueueRow) (jid : Nat) : Int :=
  match qt.find? (fun q => q.training_job_id == jid) with
  | some q => q.priority
  | none => 0

/-- The ordering the spec claims for the pending queue: adjacent jobs are in
`(priority DESC, submitted_at ASC)` order. -/
def priorityOrdered (qt : List TrainingQueueRow) : List TrainingJobRow → Bool
  | a :: b :: rest =>
    (decide (priorityOf qt a.id > priorityOf qt b.id ∨
      (priorityOf qt a.id = priorityOf qt b.id ∧ a.created_at ≤ b.created_at)))
      && priorityOrdered qt (b :: rest)
  | _ => true

/-! ## Part 2 — queue-manager admission, modelled from the spec

The repository's tests (src/src/tests/integration/test_training_workflow.py,
src/src/tests/performance/test_concurrent_training.py) import
`training_queue_manager.TrainingQueueManager`, but that module itself is not
under src/. The admission operation is therefore modelled from the spec. -/

/-- Modelled from the spec: the Resource Requirements value type (§3) of the
missing `training_queue_manager.py` — "immutable: `gpu_memory_gb: number`". -/
structure ResourceRequirements where
  gpu_memory_gb : Nat
deriving DecidableEq, Repr

/-- Modelled from the spec: a worker node record (§3 "Node") of the missing
`training_queue_manager.py`. -/
structure NodeInfo where
  node_id : String
  total_gpu_memory_gb : Nat
  max_concurrent_jobs : Nat
  is_healthy : Bool
deriving DecidableEq, Repr

/-- Modelled from the spec: a Job Request (§3) of the missing
`training_queue_manager.py`; `submitted_at` is a natural-number timestamp. -/
structure TrainingJobRequest where
  job_id : String
  product_id : String
  user_id : String
  priority : Int
  resource_requirements : ResourceRequirements
  submitted_at : Nat
deriving DecidableEq, Repr

/-- Modelled from the spec: the queue ordering key `(priority DESC,
submitted_at ASC)` (§3 "Queue"): `a` goes before `b`. -/
def queueBefore (a b : TrainingJobRequest) : Bool :=
  a.priority > b.priority || (a.priority == b.priority && a.submitted_at ≤ b.submitted_at)

/-- Modelled from the spec: the Queue Manager state of the missing
`training_queue_manager.py` — known nodes, the pending `job_queue`, and the
ids of running jobs. -/
structure TrainingQueueManager where
  nodes : List NodeInfo
  job_queue : List TrainingJobRequest
  running_jobs : List String
deriving Repr

/-- Modelled from the spec: insertion "into the Queue at the position dictated
by the ordering key" (§4.2). -/
def insertByPriority (req : TrainingJobRequest) : List TrainingJobRequest → List TrainingJobRequest
  | [] => [req]
  | j :: rest => if queueBefore req j then req :: j :: rest else j :: insertByPriority req rest

/-- Modelled from the spec: `add_job(request) -> bool` (§4.2) of the missing
`training_queue_manager.py`. "Returns `false` and does not enqueue when no
node's `total_gpu_memory_gb` could ever satisfy the request. Otherwise inserts
into the Queue at the position dictated by the ordering key and returns
`true`." -/
def add_job (mgr : TrainingQueueManager) (req : TrainingJobRequest) :
    Bool × TrainingQueueManager :=
  if mgr.nodes.any (fun n => req.resource_requirements.gpu_memory_gb ≤ n.total_gpu_memory_gb)
  then (true, { mgr with job_queue := insertByPriority req mgr.job_queue })
  else (false, mgr)

/-! ## Part 3 — FluxGym progress parsing (backend/services/fluxgym_service.py)

`_parse_training_output` runs three `re.search` patterns over an output line:
`step\s+(\d+)/(\d+)`, `loss:\s*([0-9.]+)`, `lr:\s*([0-9.e-]+)`, each with
`re.IGNORECASE`; the line matches when any of them does. The patterns are
rendered character-by-character below. Each pattern's greedy repetitions are
followed only by characters outside the repeated class, so maximal-munch
matching at each start position, trying the start positions left to right,
computes exactly Python's leftmost match. -/

/-- ASCII lowercase of a character code, for `re.IGNORECASE` comparison. -/
def lower_code (n : Nat) : Nat := if 65 ≤ n ∧ n ≤ 90 then n + 32 else n

/-- Case-insensitive character comparison (`re.IGNORECASE`). -/
def ci_eq (a b : Char) : Bool := lower_code a.toNat == lower_code b.toNat

/-- Python's `\s` class: space, tab, newline, carriage return, vertical tab,
form feed. -/
def is_py_space (c : Char) : Bool :=
  c == ' ' || c == '\t' || c == '\n' || c == '\r' || c == '\x0b' || c == '\x0c'

/-- The `\d` class (equivalently `[0-9]` for these ASCII patterns). -/
def is_digit_char (c : Char) : Bool := '0' ≤ c && c ≤ '9'

/-- Match a literal pattern case-insensitively at the head of the input,
returning the rest. -/
def drop_ci : List Char → List Char → Option (List Char)
  | [], cs => some cs
  | _ :: _, [] => none
  | p :: ps, c :: cs => if ci_eq p c then drop_ci ps cs else none

/-- Greedy `+` over a character class: the maximal nonempty prefix satisfying
`f`, and the rest; `none` when the first character already fails. -/
def take_while1 (f : Char → Bool) (cs : List Char) : Option (List Char × List Char) :=
  let s := cs.takeWhile f
  if s.isEmpty then none else some (s, cs.dropWhile f)

/-- `int()` on a matched digit group. -/
def digits_to_nat (ds : List Char) : Nat :=
  ds.foldl (fun acc c => 10 * acc + (c.toNat - 48)) 0

/-- Match `step\s+(\d+)/(\d+)` anchored at the head of the input, returning
`(step, total_steps)`. -/
def match_step_at (cs : List Char) : Option (Nat × Nat) := do
  let r1 ← drop_ci ['s', 't', 'e', 'p'] cs
  let (_, r2) ← take_while1 is_py_space r1
  let (d1, r3) ← take_while1 is_digit_char r2
  match r3 with
  | '/' :: r4 => do
    let (d2, _) ← take_while1 is_digit_char r4
    pure (digits_to_nat d1, digits_to_nat d2)
  | _ => none

/-- `re.search`: try the anchored matcher at every start position, leftmost
first. -/
def search_at_suffixes {α : Type} (f : List Char → Option α) : List Char → Option α
  | [] => f []
  | c :: cs =>
    match f (c :: cs) with
    | some r => some r
    | none => search_at_suffixes f cs

/-- `re.search(r'step\s+(\d+)/(\d+)', line, re.IGNORECASE)`. -/
def search_step (cs : List Char) : Option (Nat × Nat) := search_at_suffixes match_step_at cs

/-- Match `loss:\s*([0-9.]+)` anchored at the head of the input; the captured
group is kept as text. -/
def match_loss_at (cs : List Char) : Option String := do
  let r1 ← drop_ci ['l', 'o', 's', 's', ':'] cs
  let r2 := r1.dropWhile is_py_space
  let (d, _) ← take_while1 (fun c => is_digit_char c || c == '.') r2
  pure (String.mk d)

/-- Match `lr:\s*([0-9.e-]+)` anchored at the head of the input; with
`re.IGNORECASE` the class also admits `E`. -/
def match_lr_at (cs : List Char) : Option String := do
  let r1 ← drop_ci ['l', 'r', ':'] cs
  let r2 := r1.dropWhile is_py_space
  let (d, _) ← take_while1 (fun c => is_digit_char c || c == '.' || ci_eq c 'e' || c == '-') r2
  pure (String.mk d)

/-- `re.search(r'loss:\s*([0-9.]+)', line, re.IGNORECASE)`. -/
def search_loss (cs : List Char) : Option String := search_at_suffixes match_loss_at cs

/-- `re.search(r'lr:\s*([0-9.e-]+)', line, re.IGNORECASE)`. -/
def search_lr (cs : List Char) : Option String := search_at_suffixes match_lr_at cs

/-- The `progress_data` dictionary built by `_parse_training_output`
(fluxgym_service.py, lines 328-350): `step`/`total_steps` are set together by
the step pattern; `loss` and `lr` by their patterns (captures kept as text). -/
structure ParsedProgress where
  step_total : Option (Nat × Nat)
  loss : Option String
  lr : Option String
deriving DecidableEq, Repr

/-- `_parse_training_output` (fluxgym_service.py, lines 328-350): `None` when
no pattern matched — `return progress_data if progress_data else None`. -/
def parse_training_output (line : String) : Option ParsedProgress :=
  match search_step line.toList, search_loss line.toList, search_lr line.toList with
  | none, none, none => none
  | st, ls, lrv => some ⟨st, ls, lrv⟩

/-- Python's `str.strip()` on the characters of a decoded line: whitespace is
removed from both ends. -/
def strip_chars (cs : List Char) : List Char :=
  ((cs.dropWhile is_py_space).reverse.dropWhile is_py_space).reverse

/-- `line.decode('utf-8').strip()` as a string-to-string function. -/
def py_strip (s : String) : String := String.mk (strip_chars s.toList)

/-- One dictionary yielded by `monitor_training`: either a progress record or
the error record yielded from the `except` branch. -/
inductive MonitorEvent where
  | progressEvent (job_id : String) (step total : Nat) (pct : ℚ)
      (message : String) (loss lr : Option String)
  | errorEvent (job_id : String) (message : String)
deriving DecidableEq, Repr

/-- `monitor_training` (fluxgym_service.py, lines 289-326) as a function from
the stream of decoded output lines to the sequence of yielded dictionaries,
threading the `current_step`/`total_steps` state (initially `0`/`1000`).
A stripped-empty line is skipped; a line that parses to `None` yields nothing;
otherwise the state is updated via `progress_data.get(...)` and a progress
record with `progress = (current_step / total_steps) * 100` is yielded. When
`total_steps` is `0`, Python's division raises `ZeroDivisionError`, which the
`except` branch turns into one final error record, ending monitoring. -/
def monitor_training (job_id : String) : Nat → Nat → List String → List MonitorEvent
  | _, _, [] => []
  | cs, ts, line :: rest =>
    let line_str := py_strip line
    if line_str.toList.isEmpty then monitor_training job_id cs ts rest
    else
      match parse_training_output line_str with
      | none => monitor_training job_id cs ts rest
      | some pd =>
        let cs2 := match pd.step_total with | some (s, _) => s | none => cs
        let ts2 := match pd.step_total with | some (_, t) => t | none => ts
        if ts2 = 0 then [MonitorEvent.errorEvent job_id "division by zero"]
        else
          MonitorEvent.progressEvent job_id cs2 ts2 ((cs2 : ℚ) / (ts2 : ℚ) * 100)
              line_str pd.loss pd.lr
            :: monitor_training job_id cs2 ts2 rest

/-! ## Part 4 — the TrainingService (backend/services/training_service.py)

The service owns the `active_jobs` dictionary (external_id → job info) and
updates `training_jobs` rows through SQLAlchemy sessions. The database is
embedded as a list of rows; `db.query(...).filter(TrainingJob.id == job_id)
.first()` followed by field assignments and `db.commit()` becomes an update of
the first row with that id. Fallible external steps (dataset preparation,
process launch, post-completion processing) are explicit `Except`/`Option`
parameters. -/

/-- `TrainingStatus` (backend/models/training.py). -/
inductive TrainingStatus where
  | pending
  | running
  | completed
  | failed
  | cancelled
deriving DecidableEq, Repr

/-- A row of the backend `training_jobs` table (backend/models/training.py,
`TrainingJob`), restricted to the columns the service writes. -/
structure TrainingJobDb where
  id : Nat
  external_id : Option String
  status : TrainingStatus
  progress : ℚ
  message : String
deriving DecidableEq, Repr

/-- `db.query(TrainingJob).filter(TrainingJob.id == job_id).first()`. -/
def db_find (db : List TrainingJobDb) (job_id : Nat) : Option TrainingJobDb :=
  db.find? (fun j => j.id == job_id)

/-- Mutating the row returned by `.first()` and committing: the first row with
this id is replaced by `f` of it; a no-op when no row matches (the service's
`if job:` guard). -/
def db_update (db : List TrainingJobDb) (job_id : Nat) (f : TrainingJobDb → TrainingJobDb) :
    List TrainingJobDb :=
  match db with
  | [] => []
  | j :: rest => if j.id == job_id then f j :: rest else j :: db_update rest job_id f

/-- Status of a job row, when present. -/
def statusOf (db : List TrainingJobDb) (job_id : Nat) : Option TrainingStatus :=
  (db_find db job_id).map (fun j => j.status)

/-- Message of a job row, when present. -/
def messageOf (db : List TrainingJobDb) (job_id : Nat) : Option String :=
  (db_find db job_id).map (fun j => j.message)

/-- The row assignment block of `start_training_job` lines 44-52: external id,
status RUNNING, preparing message. -/
def set_dispatch_running (eid : String) (j : TrainingJobDb) : TrainingJobDb :=
  { j with external_id := some eid, status := TrainingStatus.running,
           message := "Preparing dataset for sd-scripts training..." }

/-- The row assignment block of `start_training_job` lines 64-70: message and
5% progress after dataset preparation. -/
def set_preparing_done (j : TrainingJobDb) : TrainingJobDb :=
  { j with message := "Starting sd-scripts FLUX training...", progress := 5 }

/-- The row assignment block of `start_training_job` lines 113-119: message
and 10% progress once the process is launched. -/
def set_started (j : TrainingJobDb) : TrainingJobDb :=
  { j with message := "Training started with sd-scripts", progress := 10 }

/-- The row assignment block of `_handle_training_failure` lines 230-233. -/
def set_failed (m : String) (j : TrainingJobDb) : TrainingJobDb :=
  { j with status := TrainingStatus.failed, message := m }

/-- The row assignment block of `_handle_training_completion` lines 196-200. -/
def set_completed (j : TrainingJobDb) : TrainingJobDb :=
  { j with status := TrainingStatus.completed, progress := 100,
           message := "Training completed successfully with sd-scripts" }

/-- The row assignment block of `stop_training` lines 276-280. -/
def set_cancelled (j : TrainingJobDb) : TrainingJobDb :=
  { j with status := TrainingStatus.cancelled, message := "Training cancelled by user" }

/-- The row assignment block of the progress loop, lines 154-157, for a
progress record (both `progress` and `message` keys present). -/
def set_progress (pct : ℚ) (msg : String) (j : TrainingJobDb) : TrainingJobDb :=
  { j with progress := pct, message := msg }

/-- The row assignment block of the progress loop for the error record (only
a `message` key; `progress.get("progress", job.progress or 0)` keeps the
stored progress). -/
def set_db_message (msg : String) (j : TrainingJobDb) : TrainingJobDb :=
  { j with message := msg }

/-- One value of the `self.active_jobs[external_id]` dictionary
(training_service.py, lines 100-108), restricted to the fields the lifecycle
operations read. -/
structure ActiveJobInfo where
  product_name : String
  user_id : Nat
  job_id : Nat
deriving DecidableEq, Repr

/-- The TrainingService state: the persisted rows and the `active_jobs`
dictionary, as an association list keyed by `external_id`. -/
structure ServiceState where
  db : List TrainingJobDb
  active_jobs : List (String × ActiveJobInfo)
deriving DecidableEq, Repr

/-- `self.active_jobs.get(external_id)`. -/
def active_lookup (s : ServiceState) (external_id : String) : Option ActiveJobInfo :=
  (s.active_jobs.find? (fun p => p.1 == external_id)).map (fun p => p.2)

/-- `start_training_job` (training_service.py, lines 28-132). The body first
records `external_id`, status RUNNING and the preparing message; `prepare` is
the outcome of `fluxgym_service.prepare_dataset` and `start_res` the outcome
of `fluxgym_service.start_training` (lines 146-148 of fluxgym_service.py turn
a launch exception into `{"success": False, "error": str(e)}`, re-raised at
line 98). Any failure is caught by the `except` block (lines 123-132), which
marks the job FAILED with the underlying reason; only a successful launch
inserts the process into `active_jobs`. -/
def start_training_job (s : ServiceState) (job_id : Nat) (external_id : String)
    (product_name : String) (user_id : Nat)
    (prepare : Except String Unit) (start_res : Except String Unit) : ServiceState :=
  let db1 := db_update s.db job_id (set_dispatch_running external_id)
  match prepare with
  | Except.error e =>
    { s with db := db_update db1 job_id (set_failed ("Training failed: " ++ e)) }
  | Except.ok _ =>
    let db2 := db_update db1 job_id set_preparing_done
    match start_res with
    | Except.error e =>
      { s with db := db_update db2 job_id (set_failed ("Training failed: " ++ e)) }
    | Except.ok _ =>
      let db3 := db_update db2 job_id set_started
      { db := db3,
        active_jobs := (external_id, ⟨product_name, user_id, job_id⟩) :: s.active_jobs }

/-- `_handle_training_failure` (training_service.py, lines 225-236): mark the
job FAILED with the given message. -/
def handle_training_failure (db : List TrainingJobDb) (job_id : Nat)
    (error_message : String) : List TrainingJobDb :=
  db_update db job_id (set_failed error_message)

/-- `_handle_training_completion` (training_service.py, lines 184-223): mark
the job COMPLETED at 100% and commit; `postError` is an exception raised by
the post-completion steps that run after that commit (product/model-path
update, `cleanup_training_files`) — the `except` block (lines 221-223) then
downgrades the job via `_handle_training_failure`. -/
def handle_training_completion (db : List TrainingJobDb) (job_id : Nat)
    (postError : Option String) : List TrainingJobDb :=
  let db1 := db_update db job_id set_completed
  match postError with
  | none => db1
  | some e => handle_training_failure db1 job_id ("Post-training error: " ++ e)

/-- One iteration of the progress loop of `_monitor_training_job`
(training_service.py, lines 150-158): `job.progress = progress.get("progress",
job.progress or 0)`, `job.message = progress.get("message", ...)`. A progress
record carries both keys; the error record carries only `message`. -/
def apply_progress_update (db : List TrainingJobDb) (job_id : Nat)
    (ev : MonitorEvent) : List TrainingJobDb :=
  match ev with
  | MonitorEvent.progressEvent _ _ _ pct msg _ _ =>
    db_update db job_id (set_progress pct msg)
  | MonitorEvent.errorEvent _ msg =>
    db_update db job_id (set_db_message msg)

/-- `_monitor_training_job` (training_service.py, lines 134-182): look up the
job in `active_jobs`; apply every dictionary yielded by
`fluxgym_service.monitor_training` over the process output `lines`; after the
stream is exhausted, `await process.wait()` and branch on `process.returncode`
— `0` goes to `_handle_training_completion` (with `postError` the exception,
if any, raised by its post-commit steps), nonzero to
`_handle_training_failure` with the code in the message. The `finally` block
(lines 178-182) deletes `external_id` from `active_jobs` on every path. -/
def monitor_training_job (s : ServiceState) (external_id : String)
    (lines : List String) (returncode : Int) (postError : Option String) : ServiceState :=
  match active_lookup s external_id with
  | none => s
  | some info =>
    let events := monitor_training external_id 0 1000 lines
    let db1 := events.foldl (fun db ev => apply_progress_update db info.job_id ev) s.db
    let db2 :=
      if returncode = 0 then handle_training_completion db1 info.job_id postError
      else handle_training_failure db1 info.job_id
        ("Training process failed with code " ++ toString returncode)
    { db := db2, active_jobs := s.active_jobs.eraseP (fun p => p.1 == external_id) }

/-- Where an exception, when one is raised, strikes inside `stop_training`'s
`try` block (training_service.py, lines 261-291): `beforeCommit` —
`process.terminate()` / the waits (lines 262-271) or the DB session (lines
274-281) raised before the CANCELLED commit; `afterCommit` —
`cleanup_training_files` (line 285) raised after the commit. -/
inductive StopFault where
  | beforeCommit
  | afterCommit
deriving DecidableEq, Repr

/-- `stop_training` (training_service.py, lines 254-295): `False` when
`external_id` is not an active job. Otherwise the `try` block terminates the
process (see `terminate_sequence` for the signal protocol), commits the
CANCELLED update, runs `cleanup_training_files`, deletes the `active_jobs`
entry and returns `True`. `fault` is the exception, if any, raised inside the
`try` block: the `except` branch (lines 293-295) then returns `False`, so the
`active_jobs` entry is retained — with the job unchanged when the exception
preceded the commit, and already marked CANCELLED when post-commit cleanup was
the step that raised. -/
def stop_training (s : ServiceState) (external_id : String)
    (fault : Option StopFault) : Bool × ServiceState :=
  match active_lookup s external_id with
  | none => (false, s)
  | some info =>
    match fault with
    | some StopFault.beforeCommit => (false, s)
    | some StopFault.afterCommit =>
      (false, { db := db_update s.db info.job_id set_cancelled,
                active_jobs := s.active_jobs })
    | none =>
      let db2 := db_update s.db info.job_id set_cancelled
      (true, { db := db2, active_jobs := s.active_jobs.eraseP (fun p => p.1 == external_id) })

/-! ## Part 5 — the termination protocol of `stop_training`
(training_service.py, lines 261-272)

`process.terminate()`; `asyncio.wait_for(process.wait(), timeout=10.0)`; on
`TimeoutError`, `process.kill()` then `await process.wait()`; only then is the
job marked CANCELLED. The subprocess is modelled by the delay, in seconds,
between the graceful stop signal and its exit. -/

/-- The observable actions of `stop_training`'s termination protocol, in
order: graceful signal, process exit confirmed by `wait()`, forced kill,
database update to CANCELLED. -/
inductive StopEvent where
  | sigTerm
  | procExited
  | sigKill
  | markCancelled
deriving DecidableEq, Repr

/-- A training subprocess, modelled by how long after `terminate()` it would
exit on its own; a process that ignores the signal has a delay beyond any
grace period. -/
structure TrainProcess where
  exit_delay : Nat
deriving DecidableEq, Repr

/-- The grace period of `asyncio.wait_for(process.wait(), timeout=10.0)`. -/
def grace_period : Nat := 10

/-- The event sequence of `stop_training` lines 262-281: terminate, then
either the process exits within the grace period, or the wait times out and
the process is killed and then confirmed exited; the CANCELLED update runs
after exit is confirmed in both branches. -/
def terminate_sequence (p : TrainProcess) : List StopEvent :=
  if p.exit_delay ≤ grace_period then
    [StopEvent.sigTerm, StopEvent.procExited, StopEvent.markCancelled]
  else
    [StopEvent.sigTerm, StopEvent.sigKill, StopEvent.procExited, StopEvent.markCancelled]

/-- How long `stop_training` waits on the graceful `process.wait()`: the
process's own exit delay, cut off by the grace period. -/
def wait_duration (p : TrainProcess) : Nat := min p.exit_delay grace_period

/-! ## Part 6 — the sequence of status writes over a job's lifetime

Each `job.status = ...; db.commit()` touching one job, in commit order. The
writers are `start_training_job`, the terminal branch of
`_monitor_training_job` and — when the user cancels the running job
(backend/routers/training.py line 228 calling `stop_training`) — the
CANCELLED commit of `stop_training`. Cancellation runs concurrently with the
still-live monitor task: `stop_training` kills the process, the monitor's
`process.wait()` then returns the kill's nonzero code and
`_handle_training_failure` commits FAILED; the event loop decides whether the
CANCELLED commit lands before or after that terminal write, so the
interleaving is an explicit parameter. -/

/-- Membership in the queue after priority insertion. -/
theorem mem_insertByPriority (req : TrainingJobRequest) (q : List TrainingJobRequest) :
    req ∈ insertByPriority req q := by
  induction q with
  | nil => simp [insertByPriority]
  | cons j rest ih =>
    simp only [insertByPriority]
    split
    · exact List.mem_cons_self _ _
    · exact List.mem_cons_of_mem _ ih

/-! ## C1 — ordering of the pending queue -/

/-- A two-job table: both pending, the earlier-submitted one first. -/
def c1_db : List TrainingJobRow :=
  [⟨1, "job-a", 1, 1, "pending", 0⟩, ⟨2, "job-b", 2, 1, "pending", 1⟩]

/-- The matching `training_queue` rows: the later-submitted job has the higher
priority (10 versus 0). -/
def c1_queue_table : List TrainingQueueRow := [⟨1, 0⟩, ⟨2, 10⟩]

/-- C1, counterexample. The claim says the pending queue yields jobs in
`(priority DESC, submitted_at ASC)` order. `get_training_queue` orders pending
jobs by `created_at` alone and never reads the `training_queue.priority`
column: with job 1 (priority 0) submitted at time 0 and job 2 (priority 10)
submitted at time 1, the route yields job 1 before job 2, violating the
priority-descending requirement at this concrete input. -/
theorem C1_counterexample :
    priorityOrdered c1_queue_table (pending_jobs c1_db) = false := by decide

/-- C1, amended: for every set of job rows, the pending queue yielded by
`get_training_queue` consists of exactly the pending jobs ordered by
`created_at` (submission time) ascending; priority has no effect on the
order. In particular no job is overtaken by a peer submitted strictly later,
whatever the priorities. -/
theorem C1_pending_fifo (db : List TrainingJobRow) :
    List.Sorted byCreatedAt (pending_jobs db) ∧
    List.Perm (pending_jobs db) (db.filter (fun j => j.status == "pending")) :=
  ⟨List.sorted_insertionSort byCreatedAt _, List.perm_insertionSort byCreatedAt _⟩

/-! ## C2 — admission of infeasible resource requests -/

/-- C2: `add_job` rejects exactly the requests no node could ever satisfy.
When every known node's `total_gpu_memory_gb` is below the request, `add_job`
returns `false` and leaves the manager unchanged, so the request appears in
neither the queue nor the running set; when some node's total capacity covers
the request, `add_job` returns `true` and the request is enqueued. -/
theorem C2_add_job_admission (mgr : TrainingQueueManager) (req : TrainingJobRequest)
    (hq : req.job_id ∉ mgr.job_queue.map (fun j => j.job_id))
    (hr : req.job_id ∉ mgr.running_jobs) :
    ((∀ n ∈ mgr.nodes, n.total_gpu_memory_gb < req.resource_requirements.gpu_memory_gb) →
      add_job mgr req = (false, mgr) ∧
      req.job_id ∉ (add_job mgr req).2.job_queue.map (fun j => j.job_id) ∧
      req.job_id ∉ (add_job mgr req).2.running_jobs) ∧
    ((∃ n ∈ mgr.nodes, req.resource_requirements.gpu_memory_gb ≤ n.total_gpu_memory_gb) →
      (add_job mgr req).1 = true ∧ req ∈ (add_job mgr req).2.job_queue) := by
  by_cases hc :
      mgr.nodes.any (fun n => req.resource_requirements.gpu_memory_gb ≤ n.total_gpu_memory_gb)
      = true
  · have hstep :
        add_job mgr req =
          (true, { mgr with job_queue := insertByPriority req mgr.job_queue }) := by
      simp [add_job, hc]
    refine ⟨fun hall => absurd hc ?_, fun _ => ?_⟩
    · rcases List.any_eq_true.mp hc with ⟨n, hn, hle⟩
      have := hall n hn
      simp only [decide_eq_true_eq] at hle
      omega
    · rw [hstep]
      exact ⟨rfl, mem_insertByPriority req mgr.job_queue⟩
  · have hfalse :
        mgr.nodes.any
          (fun n => req.resource_requirements.gpu_memory_gb ≤ n.total_gpu_memory_gb) = false :=
      Bool.eq_false_iff.mpr hc
    have hstep : add_job mgr req = (false, mgr) := by
      simp [add_job, hfalse]
    refine ⟨fun _ => ?_, fun hex => ?_⟩
    · exact ⟨hstep, by rw [hstep]; exact hq, by rw [hstep]; exact hr⟩
    · rcases hex with ⟨n, hn, hle⟩
      exact absurd (List.any_eq_true.mpr ⟨n, hn, by simpa using hle⟩) hc

/-- A one-node pool with 24 GB, an empty queue and no running jobs. -/
def c2_mgr : TrainingQueueManager := ⟨[⟨"node1", 24, 2, true⟩], [], []⟩

/-- A request no node could ever satisfy (128 GB against a 24 GB pool). -/
def c2_req_big : TrainingJobRequest := ⟨"big-job", "p1", "u1", 0, ⟨128⟩, 0⟩

/-- A request the 24 GB node could satisfy. -/
def c2_req_ok : TrainingJobRequest := ⟨"ok-job", "p2", "u2", 5, ⟨16⟩, 1⟩

/-- C2, witness: the 128 GB request is rejected and never enqueued; the 16 GB
request is accepted and enqueued. -/
theorem C2_add_job_admission_witness :
    (add_job c2_mgr c2_req_big = (false, c2_mgr) ∧
      c2_req_big.job_id ∉ (add_job c2_mgr c2_req_big).2.job_queue.map (fun j => j.job_id) ∧
      c2_req_big.job_id ∉ (add_job c2_mgr c2_req_big).2.running_jobs) ∧
    ((add_job c2_mgr c2_req_ok).1 = true ∧ c2_req_ok ∈ (add_job c2_mgr c2_req_ok).2.job_queue) :=
  ⟨(C2_add_job_admission c2_mgr c2_req_big (by decide) (by decide)).1 (by decide),
    (C2_add_job_admission c2_mgr c2_req_ok (by decide) (by decide)).2
      ⟨⟨"node1", 24, 2, true⟩, by decide, by decide⟩⟩

/-! ## Database helper lemmas -/

/-- Updating the first row with `job_id` commutes with finding it, for updates
that keep the row's id. -/
theorem db_find_update_self (db : List TrainingJobDb) (job_id : Nat)
    (f : TrainingJobDb → TrainingJobDb) (hf : ∀ j, (f j).id = j.id) :
    db_find (db_update db job_id f) job_id = (db_find db job_id).map f := by
  unfold db_find
  induction db with
  | nil => rfl
  | cons j rest ih =>
    simp only [db_update]
    by_cases h : j.id = job_id
    · rw [if_pos (by simp [h] : (j.id == job_id) = true),
          List.find?_cons_of_pos _ (by simp [hf, h]),
          List.find?_cons_of_pos _ (by simp [h]), Option.map_some']
    · rw [if_neg (by simp [h] : ¬ (j.id == job_id) = true),
          List.find?_cons_of_neg _ (by simp [h]),
          List.find?_cons_of_neg _ (by simp [h]), ih]

/-- Updating a row keeps every other row as found. -/
theorem db_find_update_ne (db : List TrainingJobDb) (job_id : Nat)
    (f : TrainingJobDb → TrainingJobDb) (jid2 : Nat) (hf : ∀ j, (f j).id = j.id)
    (hne : jid2 ≠ job_id) :
    db_find (db_update db job_id f) jid2 = db_find db jid2 := by
  unfold db_find
  induction db with
  | nil => rfl
  | cons j rest ih =>
    simp only [db_update]
    by_cases h : j.id = job_id
    · have h2 : j.id ≠ jid2 := by omega
      rw [if_pos (by simp [h] : (j.id == job_id) = true),
          List.find?_cons_of_neg _ (by simp [hf, h2]),
          List.find?_cons_of_neg _ (by simp [h2])]
    · by_cases h2 : j.id = jid2
      · rw [if_neg (by simp [h] : ¬ (j.id == job_id) = true),
            List.find?_cons_of_pos _ (by simp [h2]),
            List.find?_cons_of_pos _ (by simp [h2])]
      · rw [if_neg (by simp [h] : ¬ (j.id == job_id) = true),
            List.find?_cons_of_neg _ (by simp [h2]),
            List.find?_cons_of_neg _ (by simp [h2]), ih]

/-- A status- and id-preserving update leaves every row's status as found. -/
theorem statusOf_db_update_preserve (db : List TrainingJobDb) (job_id : Nat)
    (f : TrainingJobDb → TrainingJobDb) (jid2 : Nat)
    (hid : ∀ j, (f j).id = j.id) (hst : ∀ j, (f j).status = j.status) :
    statusOf (db_update db job_id f) jid2 = statusOf db jid2 := by
  by_cases h : jid2 = job_id
  · subst h
    rw [statusOf, db_find_update_self db jid2 f hid, statusOf]
    cases db_find db jid2 with
    | none => rfl
    | some j => simp [hst]
  · rw [statusOf, db_find_update_ne db job_id f jid2 hid h, statusOf]

/-- An id-preserving update leaves row presence as found. -/
theorem db_find_isSome_db_update (db : List TrainingJobDb) (job_id : Nat)
    (f : TrainingJobDb → TrainingJobDb) (jid2 : Nat) (hid : ∀ j, (f j).id = j.id) :
    (db_find (db_update db job_id f) jid2).isSome = (db_find db jid2).isSome := by
  by_cases h : jid2 = job_id
  · subst h
    rw [db_find_update_self db jid2 f hid]
    cases db_find db jid2 <;> rfl
  · rw [db_find_update_ne db job_id f jid2 hid h]

/-- One progress-loop iteration changes neither any row's status nor row
presence. -/
theorem apply_progress_update_preserve (db : List TrainingJobDb) (job_id : Nat)
    (ev : MonitorEvent) (jid2 : Nat) :
    statusOf (apply_progress_update db job_id ev) jid2 = statusOf db jid2 ∧
    (db_find (apply_progress_update db job_id ev) jid2).isSome
      = (db_find db jid2).isSome := by
  cases ev with
  | progressEvent a b c d e g i =>
    exact ⟨statusOf_db_update_preserve db job_id _ jid2 (fun _ => rfl) (fun _ => rfl),
      db_find_isSome_db_update db job_id _ jid2 (fun _ => rfl)⟩
  | errorEvent a b =>
    exact ⟨statusOf_db_update_preserve db job_id _ jid2 (fun _ => rfl) (fun _ => rfl),
      db_find_isSome_db_update db job_id _ jid2 (fun _ => rfl)⟩

/-- The whole progress loop of `_monitor_training_job` changes neither any
row's status nor row presence. -/
theorem foldl_progress_preserve (events : List MonitorEvent) (job_id jid2 : Nat) :
    ∀ db : List TrainingJobDb,
      statusOf (events.foldl (fun d ev => apply_progress_update d job_id ev) db) jid2
        = statusOf db jid2 ∧
      (db_find (events.foldl (fun d ev => apply_progress_update d job_id ev) db) jid2).isSome
        = (db_find db jid2).isSome := by
  induction events with
  | nil => intro db; exact ⟨rfl, rfl⟩
  | cons ev rest ih =>
    intro db
    have h1 := apply_progress_update_preserve db job_id ev jid2
    have h2 := ih (apply_progress_update db job_id ev)
    simp only [List.foldl_cons]
    exact ⟨h2.1.trans h1.1, h2.2.trans h1.2⟩

/-- `_handle_training_failure` marks a present row FAILED with the given
message. -/
theorem handle_failure_spec (db : List TrainingJobDb) (job_id : Nat) (m : String)
    (h : (db_find db job_id).isSome = true) :
    statusOf (handle_training_failure db job_id m) job_id = some TrainingStatus.failed ∧
    messageOf (handle_training_failure db job_id m) job_id = some m := by
  rcases Option.isSome_iff_exists.mp h with ⟨j, hj⟩
  unfold handle_training_failure statusOf messageOf
  rw [db_find_update_self db job_id (set_failed m) (fun _ => rfl), hj]
  exact ⟨rfl, rfl⟩

/-- `_handle_training_completion` marks a present row COMPLETED; when a
post-completion step raises after that commit, the row ends FAILED with the
`Post-training error` message. -/
theorem handle_completion_spec (db : List TrainingJobDb) (job_id : Nat)
    (pe : Option String) (h : (db_find db job_id).isSome = true) :
    statusOf (handle_training_completion db job_id pe) job_id =
      some (match pe with
            | none => TrainingStatus.completed
            | some _ => TrainingStatus.failed) ∧
    ∀ e, pe = some e →
      messageOf (handle_training_completion db job_id pe) job_id =
        some ("Post-training error: " ++ e) := by
  rcases Option.isSome_iff_exists.mp h with ⟨j, hj⟩
  cases pe with
  | none =>
    refine ⟨?_, fun e he => by cases he⟩
    unfold handle_training_completion statusOf
    dsimp only
    rw [db_find_update_self db job_id set_completed (fun _ => rfl), hj]
    rfl
  | some e =>
    have hs1 : (db_find (db_update db job_id set_completed) job_id).isSome = true := by
      rw [db_find_isSome_db_update db job_id set_completed job_id (fun _ => rfl)]
      exact h
    have h2 := handle_failure_spec (db_update db job_id set_completed) job_id
      ("Post-training error: " ++ e) hs1
    exact ⟨h2.1, fun e2 he2 => by cases he2; exact h2.2⟩

/-- After erasing the entry for a key from an association list with distinct
keys, lookup of that key fails. -/
theorem find?_eraseP_key (l : List (String × ActiveJobInfo)) (e : String)
    (hnd : (l.map Prod.fst).Nodup) :
    (l.eraseP (fun p => p.1 == e)).find? (fun p => p.1 == e) = none := by
  induction l with
  | nil => rfl
  | cons p rest ih =>
    rw [List.map_cons, List.nodup_cons] at hnd
    by_cases h : p.1 = e
    · rw [List.eraseP_cons_of_pos (by simp [h])]
      rw [List.find?_eq_none]
      intro q hq
      simp only [beq_iff_eq]
      intro hqe
      exact hnd.1 (h ▸ hqe ▸ List.mem_map_of_mem Prod.fst hq)
    · rw [List.eraseP_cons_of_neg (by simp [h])]
      rw [List.find?_cons_of_neg _ (by simp [h])]
      exact ih hnd.2

/-! ## C3 — cancellation return values -/

/-- A state with one RUNNING job (row id 1) whose process is active. -/
def c3_state : ServiceState :=
  { db := [⟨1, some "ext-1", TrainingStatus.running, 10, "Training started with sd-scripts"⟩],
    active_jobs := [("ext-1", ⟨"prod", 7, 1⟩)] }

/-- C3, counterexample. The claim says cancelling a currently active job
returns `true`, and cancelling an already-terminal job returns `false`. When
`cleanup_training_files` raises after the CANCELLED commit — the same failure
mode `C5_counterexample` exercises — the `except` block of `stop_training`
(training_service.py, lines 293-295) returns `False` for the active job, the
`active_jobs` entry is retained, and the job is nevertheless already marked
CANCELLED; a further cancel of this now-terminal job then returns `true`. -/
theorem C3_counterexample :
    active_lookup c3_state "ext-1" = some ⟨"prod", 7, 1⟩ ∧
    (stop_training c3_state "ext-1" (some StopFault.afterCommit)).1 = false ∧
    active_lookup (stop_training c3_state "ext-1" (some StopFault.afterCommit)).2 "ext-1" =
      some ⟨"prod", 7, 1⟩ ∧
    statusOf (stop_training c3_state "ext-1" (some StopFault.afterCommit)).2.db 1 =
      some TrainingStatus.cancelled ∧
    (stop_training (stop_training c3_state "ext-1" (some StopFault.afterCommit)).2
      "ext-1" none).1 = true := by
  decide

/-- C3, amended: when termination, the CANCELLED commit and cleanup complete
without raising, cancelling an active job returns `true`, marks it CANCELLED
and removes the `active_jobs` entry, after which any further cancel of that id
returns `false`; cancelling an id not in `active_jobs` (unknown, or terminal
with its monitoring finished) returns `false` whatever happens. When a step of
the `try` block raises, `stop_training` instead returns `false` with the entry
retained — with the job unchanged if the exception preceded the commit, and
already marked CANCELLED if post-commit cleanup raised. -/
theorem C3_cancel_idempotent (s : ServiceState) (external_id : String)
    (info : ActiveJobInfo)
    (h1 : active_lookup s external_id = some info)
    (hnd : (s.active_jobs.map Prod.fst).Nodup)
    (hj : (db_find s.db info.job_id).isSome = true) :
    ((stop_training s external_id none).1 = true ∧
      statusOf (stop_training s external_id none).2.db info.job_id =
        some TrainingStatus.cancelled ∧
      messageOf (stop_training s external_id none).2.db info.job_id =
        some "Training cancelled by user" ∧
      ∀ fault2, (stop_training (stop_training s external_id none).2 external_id fault2).1 =
        false) ∧
    (∀ s2 eid2 fault, active_lookup s2 eid2 = none →
      (stop_training s2 eid2 fault).1 = false) ∧
    stop_training s external_id (some StopFault.beforeCommit) = (false, s) ∧
    ((stop_training s external_id (some StopFault.afterCommit)).1 = false ∧
      (stop_training s external_id (some StopFault.afterCommit)).2.active_jobs =
        s.active_jobs ∧
      statusOf (stop_training s external_id (some StopFault.afterCommit)).2.db info.job_id =
        some TrainingStatus.cancelled) := by
  rcases Option.isSome_iff_exists.mp hj with ⟨j, hjj⟩
  have hstep :
      stop_training s external_id none =
        (true,
          { db := db_update s.db info.job_id set_cancelled,
            active_jobs := s.active_jobs.eraseP (fun p => p.1 == external_id) }) := by
    unfold stop_training
    rw [h1]
  have hfault :
      stop_training s external_id (some StopFault.afterCommit) =
        (false,
          { db := db_update s.db info.job_id set_cancelled,
            active_jobs := s.active_jobs }) := by
    unfold stop_training
    rw [h1]
  refine ⟨⟨by rw [hstep], ?_, ?_, ?_⟩, ?_, ?_, ?_⟩
  · rw [hstep]
    unfold statusOf
    rw [db_find_update_self s.db info.job_id set_cancelled (fun _ => rfl), hjj]
    rfl
  · rw [hstep]
    unfold messageOf
    rw [db_find_update_self s.db info.job_id set_cancelled (fun _ => rfl), hjj]
    rfl
  · intro fault2
    rw [hstep]
    have hnone :
        active_lookup
          { db := db_update s.db info.job_id set_cancelled,
            active_jobs := s.active_jobs.eraseP (fun p => p.1 == external_id) }
          external_id = none := by
      unfold active_lookup
      rw [find?_eraseP_key s.active_jobs external_id hnd]
      rfl
    unfold stop_training
    rw [hnone]
  · intro s2 eid2 fault h
    unfold stop_training
    rw [h]
  · unfold stop_training
    rw [h1]
  · refine ⟨by rw [hfault], by rw [hfault], ?_⟩
    rw [hfault]
    unfold statusOf
    rw [db_find_update_self s.db info.job_id set_cancelled (fun _ => rfl), hjj]
    rfl

/-- C3, witness: on the one-active-job state, a fault-free `stop_training`
returns `true`, marks the job CANCELLED, and any further cancel returns
`false`; the `afterCommit` fault returns `false` with the entry retained and
the job already CANCELLED. -/
theorem C3_cancel_idempotent_witness :
    ((stop_training c3_state "ext-1" none).1 = true ∧
      statusOf (stop_training c3_state "ext-1" none).2.db 1 = some TrainingStatus.cancelled ∧
      messageOf (stop_training c3_state "ext-1" none).2.db 1 =
        some "Training cancelled by user" ∧
      ∀ fault2, (stop_training (stop_training c3_state "ext-1" none).2 "ext-1" fault2).1 =
        false) ∧
    (∀ s2 eid2 fault, active_lookup s2 eid2 = none →
      (stop_training s2 eid2 fault).1 = false) ∧
    stop_training c3_state "ext-1" (some StopFault.beforeCommit) = (false, c3_state) ∧
    ((stop_training c3_state "ext-1" (some StopFault.afterCommit)).1 = false ∧
      (stop_training c3_state "ext-1" (some StopFault.afterCommit)).2.active_jobs =
        c3_state.active_jobs ∧
      statusOf (stop_training c3_state "ext-1" (some StopFault.afterCommit)).2.db 1 =
        some TrainingStatus.cancelled) :=
  C3_cancel_idempotent c3_state "ext-1" ⟨"prod", 7, 1⟩ (by decide) (by decide) (by decide)

/-! ## C4 — bounded, ordered termination -/

/-- C4: for every process, `stop_training`'s termination protocol waits at
most the 10-second grace period on the graceful wait, starts with the graceful
stop signal, always reaches confirmed process exit, marks the job CANCELLED
last — strictly after the exit is confirmed — and force-kills exactly when the
process outlives the grace period. Totality of `terminate_sequence` renders
"always resolves". -/
theorem C4_terminate_bounded (p : TrainProcess) :
    wait_duration p ≤ grace_period ∧
    (terminate_sequence p).head? = some StopEvent.sigTerm ∧
    StopEvent.procExited ∈ terminate_sequence p ∧
    (terminate_sequence p).getLast? = some StopEvent.markCancelled ∧
    List.indexOf StopEvent.procExited (terminate_sequence p) <
      List.indexOf StopEvent.markCancelled (terminate_sequence p) ∧
    (grace_period < p.exit_delay → StopEvent.sigKill ∈ terminate_sequence p) := by
  by_cases h : p.exit_delay ≤ grace_period
  · refine ⟨Nat.min_le_right _ _, ?_⟩
    rw [terminate_sequence, if_pos h]
    refine ⟨by decide, by decide, by decide, by decide, fun hlt => absurd h (by omega)⟩
  · refine ⟨Nat.min_le_right _ _, ?_⟩
    rw [terminate_sequence, if_neg h]
    exact ⟨by decide, by decide, by decide, by decide, fun _ => by decide⟩

/-- C4, witness: a process that ignores the stop signal for 30 seconds is
force-killed. -/
theorem C4_terminate_bounded_witness :
    StopEvent.sigKill ∈ terminate_sequence ⟨30⟩ :=
  (C4_terminate_bounded ⟨30⟩).2.2.2.2.2 (by decide)

/-! ## C6 — failed launch marks the job FAILED and retains no entry -/

/-- C6: when dataset preparation or the process launch fails, the job row ends
FAILED with the underlying reason recorded in its message, and `active_jobs`
is exactly as before — no running-job entry is retained (the dispatch code
takes no node capacity, so none is held either). -/
theorem C6_launch_failure (s : ServiceState) (jid : Nat) (eid pn : String) (uid : Nat)
    (prep sr : Except String Unit) (e : String) (j : TrainingJobDb)
    (hj : db_find s.db jid = some j)
    (hfail : prep = Except.error e ∨ (prep = Except.ok () ∧ sr = Except.error e)) :
    statusOf (start_training_job s jid eid pn uid prep sr).db jid =
      some TrainingStatus.failed ∧
    messageOf (start_training_job s jid eid pn uid prep sr).db jid =
      some ("Training failed: " ++ e) ∧
    (start_training_job s jid eid pn uid prep sr).active_jobs = s.active_jobs := by
  rcases hfail with he | ⟨hp, hs⟩
  · subst he
    refine ⟨?_, ?_, rfl⟩
    · unfold start_training_job statusOf
      dsimp only
      rw [db_find_update_self _ jid (set_failed ("Training failed: " ++ e)) (fun _ => rfl),
          db_find_update_self s.db jid (set_dispatch_running eid) (fun _ => rfl), hj]
      rfl
    · unfold start_training_job messageOf
      dsimp only
      rw [db_find_update_self _ jid (set_failed ("Training failed: " ++ e)) (fun _ => rfl),
          db_find_update_self s.db jid (set_dispatch_running eid) (fun _ => rfl), hj]
      rfl
  · subst hp; subst hs
    refine ⟨?_, ?_, rfl⟩
    · unfold start_training_job statusOf
      dsimp only
      rw [db_find_update_self _ jid (set_failed ("Training failed: " ++ e)) (fun _ => rfl),
          db_find_update_self _ jid set_preparing_done (fun _ => rfl),
          db_find_update_self s.db jid (set_dispatch_running eid) (fun _ => rfl), hj]
      rfl
    · unfold start_training_job messageOf
      dsimp only
      rw [db_find_update_self _ jid (set_failed ("Training failed: " ++ e)) (fun _ => rfl),
          db_find_update_self _ jid set_preparing_done (fun _ => rfl),
          db_find_update_self s.db jid (set_dispatch_running eid) (fun _ => rfl), hj]
      rfl

/-- A fresh PENDING job row before dispatch. -/
def c6_state : ServiceState :=
  { db := [⟨1, none, TrainingStatus.pending, 0, ""⟩], active_jobs := [] }

/-- C6, witness: a launch that fails with "CUDA out of memory" leaves the job
FAILED with that reason and an empty `active_jobs`. -/
theorem C6_launch_failure_witness :
    statusOf (start_training_job c6_state 1 "ext-9" "prod" 7
        (Except.ok ()) (Except.error "CUDA out of memory")).db 1 =
      some TrainingStatus.failed ∧
    messageOf (start_training_job c6_state 1 "ext-9" "prod" 7
        (Except.ok ()) (Except.error "CUDA out of memory")).db 1 =
      some ("Training failed: " ++ "CUDA out of memory") ∧
    (start_training_job c6_state 1 "ext-9" "prod" 7
        (Except.ok ()) (Except.error "CUDA out of memory")).active_jobs =
      c6_state.active_jobs :=
  C6_launch_failure c6_state 1 "ext-9" "prod" 7 (Except.ok ())
    (Except.error "CUDA out of memory") "CUDA out of memory"
    ⟨1, none, TrainingStatus.pending, 0, ""⟩ (by decide) (Or.inr ⟨rfl, rfl⟩)

/-! ## C5 — terminal status and the process exit code -/

/-- A running job whose monitor is about to finish. -/
def c5_state : ServiceState :=
  { db := [⟨1, some "ext-1", TrainingStatus.running, 10, "m"⟩],
    active_jobs := [("ext-1", ⟨"prod", 7, 1⟩)] }

/-- C5, counterexample. The claim says exit code `0` yields COMPLETED. When a
post-completion step raises after the COMPLETED commit (here:
`cleanup_training_files` failing with "disk full"), the `except` block of
`_handle_training_completion` downgrades the job: with exit code `0` the job
ends FAILED, so the terminal status is not derived solely from the exit
code. -/
theorem C5_counterexample :
    statusOf (monitor_training_job c5_state "ext-1" [] 0 (some "disk full")).db 1 =
      some TrainingStatus.failed := rfl

/-- C5, amended: the terminal status is derived from the process exit code and
the outcome of post-completion processing, never from parsed progress: a
nonzero exit code yields FAILED with the code recorded in the message; exit
code `0` yields COMPLETED unless a post-completion step raises, in which case
FAILED with the `Post-training error` message; and the terminal status is
independent of the output lines the progress parser saw. -/
theorem C5_terminal_from_exit_code (s : ServiceState) (eid : String)
    (info : ActiveJobInfo) (lines lines2 : List String) (rc : Int) (pe : Option String)
    (hfind : active_lookup s eid = some info)
    (hj : (db_find s.db info.job_id).isSome = true) :
    (rc ≠ 0 →
      statusOf (monitor_training_job s eid lines rc pe).db info.job_id =
        some TrainingStatus.failed ∧
      messageOf (monitor_training_job s eid lines rc pe).db info.job_id =
        some ("Training process failed with code " ++ toString rc)) ∧
    (rc = 0 → pe = none →
      statusOf (monitor_training_job s eid lines rc pe).db info.job_id =
        some TrainingStatus.completed) ∧
    (rc = 0 → ∀ e, pe = some e →
      statusOf (monitor_training_job s eid lines rc pe).db info.job_id =
        some TrainingStatus.failed ∧
      messageOf (monitor_training_job s eid lines rc pe).db info.job_id =
        some ("Post-training error: " ++ e)) ∧
    statusOf (monitor_training_job s eid lines rc pe).db info.job_id =
      statusOf (monitor_training_job s eid lines2 rc pe).db info.job_id := by
  have hunfold : ∀ L : List String,
      monitor_training_job s eid L rc pe =
        { db :=
            if rc = 0 then
              handle_training_completion
                ((monitor_training eid 0 1000 L).foldl
                  (fun db ev => apply_progress_update db info.job_id ev) s.db)
                info.job_id pe
            else
              handle_training_failure
                ((monitor_training eid 0 1000 L).foldl
                  (fun db ev => apply_progress_update db info.job_id ev) s.db)
                info.job_id ("Training process failed with code " ++ toString rc),
          active_jobs := s.active_jobs.eraseP (fun p => p.1 == eid) } := by
    intro L
    unfold monitor_training_job
    rw [hfind]
  have hIs : ∀ L : List String,
      (db_find
        ((monitor_training eid 0 1000 L).foldl
          (fun db ev => apply_progress_update db info.job_id ev) s.db)
        info.job_id).isSome = true := by
    intro L
    rw [(foldl_progress_preserve (monitor_training eid 0 1000 L)
      info.job_id info.job_id s.db).2]
    exact hj
  refine ⟨?_, ?_, ?_, ?_⟩
  · intro hrc
    rw [hunfold lines]
    dsimp only
    rw [if_neg hrc]
    exact handle_failure_spec _ info.job_id _ (hIs lines)
  · intro hrc hpe
    subst hpe
    rw [hunfold lines]
    dsimp only
    rw [if_pos hrc]
    exact (handle_completion_spec _ info.job_id none (hIs lines)).1
  · intro hrc e hpe
    subst hpe
    rw [hunfold lines]
    dsimp only
    rw [if_pos hrc]
    have hc := handle_completion_spec _ info.job_id (some e) (hIs lines)
    exact ⟨hc.1, hc.2 e rfl⟩
  · by_cases hrc : rc = 0
    · rw [hunfold lines, hunfold lines2]
      dsimp only
      rw [if_pos hrc, if_pos hrc,
        (handle_completion_spec _ info.job_id pe (hIs lines)).1,
        (handle_completion_spec _ info.job_id pe (hIs lines2)).1]
    · rw [hunfold lines, hunfold lines2]
      dsimp only
      rw [if_neg hrc, if_neg hrc,
        (handle_failure_spec _ info.job_id _ (hIs lines)).1,
        (handle_failure_spec _ info.job_id _ (hIs lines2)).1]

/-- C5, witness: with a nonzero exit code the job ends FAILED with the code in
the message, whatever was parsed. -/
theorem C5_terminal_from_exit_code_witness :
    statusOf (monitor_training_job c5_state "ext-1" ["step 1/2"] 1 none).db 1 =
      some TrainingStatus.failed ∧
    messageOf (monitor_training_job c5_state "ext-1" ["step 1/2"] 1 none).db 1 =
      some ("Training process failed with code " ++ toString (1 : Int)) :=
  (C5_terminal_from_exit_code c5_state "ext-1" ⟨"prod", 7, 1⟩ ["step 1/2"] [] 1 none
    (by decide) (by decide)).1 (by decide)

/-! ## C7 — terminal states and further transitions -/

/-- Processing a line whose stripped text matches no pattern yields nothing
and leaves the monitor state unchanged. -/
theorem monitor_skip_unmatched (line : String)
    (h : parse_training_output (py_strip line) = none) (job : String)
    (rest : List String) (cs ts : Nat) :
    monitor_training job cs ts (line :: rest) = monitor_training job cs ts rest := by
  simp only [monitor_training]
  by_cases he : (py_strip line).toList.isEmpty
  · rw [if_pos he]
  · rw [if_neg he, h]

/-- Inserting a no-pattern line anywhere in the stream leaves the yielded
event sequence unchanged. -/
theorem monitor_insert_unmatched (line : String)
    (h : parse_training_output (py_strip line) = none) (job : String) :
    ∀ (pre : List String) (cs ts : Nat) (post : List String),
      monitor_training job cs ts (pre ++ line :: post) =
        monitor_training job cs ts (pre ++ post) := by
  intro pre
  induction pre with
  | nil => intro cs ts post; exact monitor_skip_unmatched line h job post cs ts
  | cons p rest ih =>
    intro cs ts post
    simp only [List.cons_append, monitor_training]
    by_cases he : (py_strip p).toList.isEmpty
    · simp only [if_pos he]
      exact ih cs ts post
    · simp only [if_neg he]
      cases hp : parse_training_output (py_strip p) with
      | none =>
        simp only [hp]
        exact ih cs ts post
      | some pd =>
        simp only [hp]
        by_cases hz :
            (match pd.step_total with | some (_, t) => t | none => ts) = 0
        · rw [if_pos hz, if_pos hz]
        · rw [if_neg hz, if_neg hz]
          exact congrArg _ (ih _ _ post)

/-- C8: a line that matches none of the progress patterns produces no event
and no error — the yielded event sequence with the line inserted anywhere
equals the sequence without it — and the whole monitoring run of
`_monitor_training_job`, including the job's terminal state, is unchanged by
the line. -/
theorem C8_unmatched_line_ignored (line : String)
    (h : parse_training_output (py_strip line) = none) :
    (∀ (job : String) (cs ts : Nat) (pre post : List String),
      monitor_training job cs ts (pre ++ line :: post) =
        monitor_training job cs ts (pre ++ post)) ∧
    (∀ (s : ServiceState) (eid : String) (rc : Int) (pe : Option String)
        (pre post : List String),
      monitor_training_job s eid (pre ++ line :: post) rc pe =
        monitor_training_job s eid (pre ++ post) rc pe) := by
  refine ⟨fun job cs ts pre post => monitor_insert_unmatched line h job pre cs ts post, ?_⟩
  intro s eid rc pe pre post
  unfold monitor_training_job
  rw [monitor_insert_unmatched line h eid pre 0 1000 post]

/-- C8, witness: inserting the patternless line "caching latents" after a step
line changes nothing in the yielded events. -/
theorem C8_unmatched_line_ignored_witness :
    monitor_training "j" 0 1000 (["step 1/2"] ++ "caching latents" :: []) =
      monitor_training "j" 0 1000 (["step 1/2"] ++ []) :=
  (C8_unmatched_line_ignored "caching latents" (by decide)).1 "j" 0 1000 ["step 1/2"] []

/-! ## C9 — `active_jobs` cleanup when monitoring finishes -/

/-- C9: whenever a monitoring run finishes — exit code `0`, nonzero exit code,
or an exception folded into the error path — the `finally` block has removed
`external_id` from `active_jobs` (and an id that was never active stays
absent). -/
theorem C9_monitor_removes_active (s : ServiceState) (eid : String)
    (lines : List String) (rc : Int) (pe : Option String)
    (hnd : (s.active_jobs.map Prod.fst).Nodup) :
    active_lookup (monitor_training_job s eid lines rc pe) eid = none := by
  unfold monitor_training_job
  cases hfind : active_lookup s eid with
  | none => exact hfind
  | some info =>
    unfold active_lookup
    dsimp only
    rw [find?_eraseP_key s.active_jobs eid hnd]
    rfl

/-- A running job about to be monitored to completion. -/
def c9_state : ServiceState :=
  { db := [⟨1, some "ext-1", TrainingStatus.running, 10, "m"⟩],
    active_jobs := [("ext-1", ⟨"prod", 7, 1⟩)] }

/-- C9, witness: after a successful monitoring run the external id is gone
from `active_jobs`. -/
theorem C9_monitor_removes_active_witness :
    active_lookup (monitor_training_job c9_state "ext-1" ["step 1/2"] 0 none) "ext-1" =
      none :=
  C9_monitor_removes_active c9_state "ext-1" ["step 1/2"] 0 none (by decide)

/-! ## C10 — the progress percentage and its divisor -/

/-- C10, counterexample. The claim says the `total_steps` in effect when a
progress record is yielded is never zero, making the division well-defined.
The step pattern `(\d+)` accepts `0`: the line "step 5/0" parses to
`total_steps = 0`, and evaluating `(current_step / total_steps) * 100` at the
yield raises `ZeroDivisionError`, which ends monitoring with the error record
instead of a progress record. -/
theorem C10_counterexample :
    parse_training_output "step 5/0" = some ⟨some (5, 0), none, none⟩ ∧
    monitor_training "job" 0 1000 ["step 5/0"] =
      [MonitorEvent.errorEvent "job" "division by zero"] := by
  exact ⟨by decide, rfl⟩

/-- C10, amended: every progress record actually yielded carries a nonzero
`total_steps` and a percentage equal to `(step / total_steps) * 100`; a step
line whose total is zero instead aborts monitoring with the
`ZeroDivisionError` error record. -/
theorem C10_progress_formula (job : String) :
    ∀ (lines : List String) (cs ts : Nat) (ev : MonitorEvent),
      ev ∈ monitor_training job cs ts lines →
      ∀ (jid : String) (st tot : Nat) (pct : ℚ) (msg : String) (l r : Option String),
        ev = MonitorEvent.progressEvent jid st tot pct msg l r →
          tot ≠ 0 ∧ pct = (st : ℚ) / (tot : ℚ) * 100 := by
  intro lines
  induction lines with
  | nil => intro cs ts ev hev; cases hev
  | cons line rest ih =>
    intro cs ts ev hev
    simp only [monitor_training] at hev
    by_cases he : (py_strip line).toList.isEmpty
    · rw [if_pos he] at hev
      exact ih cs ts ev hev
    · rw [if_neg he] at hev
      cases hp : parse_training_output (py_strip line) with
      | none =>
        simp only [hp] at hev
        exact ih cs ts ev hev
      | some pd =>
        simp only [hp] at hev
        by_cases hz :
            (match pd.step_total with | some (_, t) => t | none => ts) = 0
        · rw [if_pos hz] at hev
          rcases List.mem_singleton.mp hev with rfl
          intro jid st tot pct msg l r heq
          exact absurd heq (by simp)
        · rw [if_neg hz] at hev
          rcases List.mem_cons.mp hev with rfl | htail
          · intro jid st tot pct msg l r heq
            injection heq with hj hst htot hpct hmsg hl hr
            refine ⟨?_, ?_⟩
            · rw [← htot]; exact hz
            · rw [← hpct, ← hst, ← htot]
          · exact ih _ _ ev htail

/-- C10, witness: the line "step 1/2" yields a progress record whose total is
nonzero and whose percentage is `(1 / 2) * 100`. -/
theorem C10_progress_formula_witness :
    (2 : Nat) ≠ 0 ∧ ((1 : Nat) : ℚ) / ((2 : Nat) : ℚ) * 100 =
      ((1 : Nat) : ℚ) / ((2 : Nat) : ℚ) * 100 :=
  C10_progress_formula "j" ["step 1/2"] 0 1000
    (MonitorEvent.progressEvent "j" 1 2 (((1 : Nat) : ℚ) / ((2 : Nat) : ℚ) * 100)
      "step 1/2" none none)
    (by rw [show monitor_training "j" 0 1000 ["step 1/2"] =
          [MonitorEvent.progressEvent "j" 1 2 (((1 : Nat) : ℚ) / ((2 : Nat) : ℚ) * 100)
            "step 1/2" none none] from rfl]
        exact List.mem_singleton_self _)
    "j" 1 2 _ "step 1/2" none none rfl

end UserMgmt
